import Mathlib

/-!
Verification of the sanitization engine of `scripts/capture_codex_fixture.py`.

The development shallowly embeds the Python module: `hashlib.sha256(...).hexdigest()`
is implemented bit-for-bit as `sha256_hexdigest`, the module-level regexes become
decidable matchers with Python `re.match` semantics (including `$` accepting a
final newline), and the `Sanitizer` class becomes a state-passing structure whose
methods mirror the source line by line.
-/

set_option maxRecDepth 100000

namespace LocalPush

/-! ## SHA-256 (model of `hashlib.sha256(s.encode("utf-8")).hexdigest()`) -/

/-- Truncate to a 32-bit word. -/
def w32 (n : Nat) : Nat := n % 4294967296

/-- Rotation of a 32-bit word to the right by `n` bits. -/
def rotr32 (x n : Nat) : Nat := w32 ((x >>> n) ||| (x <<< (32 - n)))

/-- The 64 round constants of FIPS 180-4, written in decimal. -/
def shaK : List Nat := [
  1116352408, 1899447441, 3049323471, 3921009573, 961987163, 1508970993,
  2453635748, 2870763221, 3624381080, 310598401, 607225278, 1426881987,
  1925078388, 2162078206, 2614888103, 3248222580, 3835390401, 4022224774,
  264347078, 604807628, 770255983, 1249150122, 1555081692, 1996064986,
  2554220882, 2821834349, 2952996808, 3210313671, 3336571891, 3584528711,
  113926993, 338241895, 666307205, 773529912, 1294757372, 1396182291,
  1695183700, 1986661051, 2177026350, 2456956037, 2730485921, 2820302411,
  3259730800, 3345764771, 3516065817, 3600352804, 4094571909, 275423344,
  430227734, 506948616, 659060556, 883997877, 958139571, 1322822218,
  1537002063, 1747873779, 1955562222, 2024104815, 2227730452, 2361852424,
  2428436474, 2756734187, 3204031479, 3329325298]

/-- The eight initial hash words of FIPS 180-4, written in decimal. -/
def shaH0 : List Nat :=
  [1779033703, 3144134277, 1013904242, 2773480762,
    1359893119, 2600822924, 528734635, 1541459225]

/-- UTF-8 encoding of a single code point (model of Python `str.encode("utf-8")`
per character). -/
def utf8Bytes (c : Char) : List Nat :=
  let n := c.toNat
  if n < 0x80 then [n]
  else if n < 0x800 then [0xc0 ||| (n >>> 6), 0x80 ||| (n &&& 0x3f)]
  else if n < 0x10000 then
    [0xe0 ||| (n >>> 12), 0x80 ||| ((n >>> 6) &&& 0x3f), 0x80 ||| (n &&& 0x3f)]
  else
    [0xf0 ||| (n >>> 18), 0x80 ||| ((n >>> 12) &&& 0x3f), 0x80 ||| ((n >>> 6) &&& 0x3f),
      0x80 ||| (n &&& 0x3f)]

/-- UTF-8 byte sequence of a string. -/
def strBytes (s : String) : List Nat := (s.data.map utf8Bytes).flatten

/-- SHA-256 message padding: append `0x80`, zero-fill to 56 mod 64, then the
64-bit big-endian bit length. -/
def padMsg (msg : List Nat) : List Nat :=
  let l := msg.length
  let padLen := (55 + 64 - l % 64) % 64 + 1
  msg ++ (0x80 :: List.replicate (padLen - 1) 0) ++
    (List.range 8).map (fun i => ((8 * l) >>> (8 * (7 - i))) &&& 0xff)

/-- Group bytes into big-endian 32-bit words. -/
def toWords : List Nat → List Nat
  | b0 :: b1 :: b2 :: b3 :: rest => (b0 <<< 24 ||| b1 <<< 16 ||| b2 <<< 8 ||| b3) :: toWords rest
  | _ => []

/-- Indexing: `nth l i` is `l[i]`, defaulting to 0 out of range. -/
def nth (l : List Nat) (i : Nat) : Nat := (l.get? i).getD 0

/-- One message-schedule extension step. -/
def schedStep (w : List Nat) (i : Nat) : Nat :=
  let x := nth w (i - 15)
  let y := nth w (i - 2)
  let s0 := (rotr32 x 7) ^^^ (rotr32 x 18) ^^^ (x >>> 3)
  let s1 := (rotr32 y 17) ^^^ (rotr32 y 19) ^^^ (y >>> 10)
  w32 (nth w (i - 16) + s0 + nth w (i - 7) + s1)

/-- Extend the 16-word schedule by `n` further words. -/
def extendW (w : List Nat) : Nat → List Nat
  | 0 => w
  | n + 1 => let w' := extendW w n; w' ++ [schedStep w' (16 + n)]

/-- One SHA-256 compression round; `kw` is `K[i] + W[i]` mod 2^32. -/
def roundStep (hs : List Nat) (kw : Nat) : List Nat :=
  match hs with
  | [va, vb, vc, vd, ve, vf, vg, vh] =>
    let s1 := ((rotr32 ve 6) ^^^ (rotr32 ve 11)) ^^^ (rotr32 ve 25)
    let ch := (ve &&& vf) ^^^ ((4294967295 ^^^ ve) &&& vg)
    let t1 := w32 (vh + s1 + ch + kw)
    let s0 := ((rotr32 va 2) ^^^ (rotr32 va 13)) ^^^ (rotr32 va 22)
    let mj := ((va &&& vb) ^^^ (va &&& vc)) ^^^ (vb &&& vc)
    let t2 := w32 (s0 + mj)
    [w32 (t1 + t2), va, vb, vc, w32 (vd + t1), ve, vf, vg]
  | other => other

/-- Compress one 64-byte block into the hash state. -/
def compressBlock (hs : List Nat) (block : List Nat) : List Nat :=
  let w := extendW (toWords block) 48
  let kw := (List.range 64).map (fun i => w32 (nth shaK i + nth w i))
  let final := kw.foldl roundStep hs
  (List.range 8).map (fun i => w32 (nth hs i + nth final i))

/-- Split into 64-byte chunks (fuel-indexed so it is structurally recursive). -/
def chunksAux : Nat → List Nat → List (List Nat)
  | 0, _ => []
  | _, [] => []
  | fuel + 1, l => l.take 64 :: chunksAux fuel (l.drop 64)

/-- Split a byte list into 64-byte chunks. -/
def chunks (l : List Nat) : List (List Nat) := chunksAux l.length l

/-- The eight 32-bit words of the SHA-256 digest of the UTF-8 bytes of a string. -/
def sha256Words (s : String) : List Nat :=
  (chunks (padMsg (strBytes s))).foldl compressBlock shaH0

/-- Lowercase hexadecimal digit. -/
def hexDigit (n : Nat) : Char := if n < 10 then Char.ofNat (48 + n) else Char.ofNat (87 + n)

/-- Eight lowercase hex digits of a 32-bit word, most significant first. -/
def hexWord (n : Nat) : List Char := (List.range 8).map (fun i => hexDigit ((n >>> (4 * (7 - i))) &&& 0xf))

/-- Model of `hashlib.sha256(s.encode("utf-8")).hexdigest()`: the 64-character lowercase
hexadecimal SHA-256 digest of a string. -/
def sha256_hexdigest (s : String) : String := ⟨((sha256Words s).map hexWord).flatten⟩

/-- FIPS 180-4 test vector. -/
theorem sha256_vector_abc :
    sha256_hexdigest "abc" =
      "ba7816bf8f01cfea414140de5dae2223b00361a396177a9cb410ff61f20015ad" := by rfl

/-- Digest of the empty string, cross-checked against `sha256sum`. -/
theorem sha256_vector_empty :
    sha256_hexdigest "" =
      "e3b0c44298fc1c149afbf4c8996fb92427ae41e4649b934ca495991b7852b855" := by rfl

/-! ## Python string primitives -/

/-- Python `str.lower()` on one character, modelled for ASCII. -/
def pyLowerChar (c : Char) : Char :=
  if 'A' ≤ c && c ≤ 'Z' then Char.ofNat (c.toNat + 32) else c

/-- Python `key.lower()` (ASCII model). -/
def pyLower (s : String) : String := ⟨s.data.map pyLowerChar⟩

/-- Python `str.upper()` on one character, modelled for ASCII. -/
def pyUpperChar (c : Char) : Char :=
  if 'a' ≤ c && c ≤ 'z' then Char.ofNat (c.toNat - 32) else c

/-- Python `key_prefix.upper()` (ASCII model). -/
def pyUpper (s : String) : String := ⟨s.data.map pyUpperChar⟩

/-- Python `value.startswith(pre)`. -/
def pyStartsWith (s pre : String) : Bool := pre.data.isPrefixOf s.data

/-- Python `key.endswith(suf)`. -/
def pyEndsWith (s suf : String) : Bool := suf.data.isSuffixOf s.data

/-- Python `pat in s` (substring containment). -/
def hasInfixChars (pat : List Char) : List Char → Bool
  | [] => pat.isEmpty
  | c :: cs => pat.isPrefixOf (c :: cs) || hasInfixChars pat cs

/-- Python `pat in s` on strings. -/
def pyContains (s pat : String) : Bool := hasInfixChars pat.data s.data

/-! ## The module-level regexes, as decidable matchers

In Python, `re.match(p, s)` with a pattern of the form `^...$` succeeds exactly
when the body matches all of `s`, or all of `s` minus one final newline
(`$` also matches just before a trailing `"\n"`). `pyDollarMatch` applies that
rule to a whole-string matcher. `\d` is modelled as an ASCII decimal digit. -/

/-- Apply a whole-string matcher with the Python rule that `$` may also match before one final newline. -/
def pyDollarMatch (core : List Char → Bool) (s : String) : Bool :=
  core s.data ||
    (match s.data.getLast? with
      | some c => c == '\n' && core s.data.dropLast
      | none => false)

/-- Consume exactly `n` decimal digits. -/
def eatDigits : Nat → List Char → Option (List Char)
  | 0, cs => some cs
  | n + 1, c :: cs => if c.isDigit then eatDigits n cs else none
  | _ + 1, [] => none

/-- Consume one literal character. -/
def eatLit (a : Char) : List Char → Option (List Char)
  | c :: cs => if c = a then some cs else none
  | [] => none

/-- Consume `\d{4}-\d{2}-\d{2}` (the shared date part of both patterns). -/
def eatDate (cs : List Char) : Option (List Char) :=
  ((((eatDigits 4 cs).bind (eatLit '-')).bind (eatDigits 2)).bind (eatLit '-')).bind (eatDigits 2)

/-- Whole-string body of `ISO_TS_RE`:
`\d{4}-\d{2}-\d{2}T\d{2}:\d{2}:\d{2}(?:\.\d+)?Z`. -/
def isoTsCore (cs : List Char) : Bool :=
  match ((((((eatDate cs).bind (eatLit 'T')).bind (eatDigits 2)).bind
      (eatLit ':')).bind (eatDigits 2)).bind (eatLit ':')).bind (eatDigits 2) with
  | none => false
  | some rest =>
    match rest with
    | ['Z'] => true
    | '.' :: r =>
      let ds := r.takeWhile Char.isDigit
      decide (1 ≤ ds.length) && (r.drop ds.length == ['Z'])
    | _ => false

/-- The test `ISO_TS_RE.match(value)` as a Boolean. -/
def ISO_TS_RE_match (s : String) : Bool := pyDollarMatch isoTsCore s

/-- Whole-string body of `DATE_RE`: `\d{4}-\d{2}-\d{2}`. -/
def dateCore (cs : List Char) : Bool := eatDate cs == some []

/-- The test `DATE_RE.match(value)` as a Boolean. -/
def DATE_RE_match (s : String) : Bool := pyDollarMatch dateCore s

/-- The class `[0-9a-f]` with `re.IGNORECASE`. -/
def isHexIC (c : Char) : Bool :=
  c.isDigit || ('a' ≤ c && c ≤ 'f') || ('A' ≤ c && c ≤ 'F')

/-- Whole-string body of `UUIDISH_RE`: `[0-9a-f]{8,}-[0-9a-f-]{8,}` (ignoring
case). The first class excludes `-`, so with backtracking the first group must
be the maximal hex run, followed by a literal `-` and at least 8 characters of
hex-or-hyphen. -/
def uuidishCore (cs : List Char) : Bool :=
  let hd := cs.takeWhile isHexIC
  decide (8 ≤ hd.length) &&
    (match cs.drop hd.length with
      | '-' :: tl => decide (8 ≤ tl.length) && tl.all (fun c => isHexIC c || c == '-')
      | _ => false)

/-- The test `UUIDISH_RE.match(value)` as a Boolean. -/
def UUIDISH_RE_match (s : String) : Bool := pyDollarMatch uuidishCore s

/-- The identifier-safe class: ASCII letters, digits, dot, underscore, colon, slash, hyphen. -/
def isIdentSafeChar (c : Char) : Bool :=
  ('A' ≤ c && c ≤ 'Z') || ('a' ≤ c && c ≤ 'z') || c.isDigit ||
    c == '.' || c == '_' || c == ':' || c == '/' || c == '-'

/-- Whole-string body of the identifier-safe pattern: one or more identifier-safe characters. -/
def identSafeCore (cs : List Char) : Bool := !cs.isEmpty && cs.all isIdentSafeChar

/-- The inline identifier-safe `re.match` (line 141 of the source) as a Boolean. -/
def IDENT_SAFE_RE_match (s : String) : Bool := pyDollarMatch identSafeCore s

/-! ## The module-level key sets -/

/-- The set `PRESERVE_STRING_KEYS` (declared in the source; not consulted by
`sanitize_generic_string`, which hard-codes its own key sets). -/
def PRESERVE_STRING_KEYS : List String :=
  ["type", "role", "id", "session_id", "sessionId", "model", "model_provider", "source",
   "originator", "cli_version", "commit_hash", "branch", "state", "status", "repository_url",
   "cwd", "timestamp", "createdAt", "updatedAt"]

/-- The set `PATHISH_KEYS`. -/
def PATHISH_KEYS : List String :=
  ["cwd", "workdir", "path", "file", "filePath", "entrypoint_path"]

/-- The set `URLISH_KEYS`. -/
def URLISH_KEYS : List String :=
  ["repository_url", "url", "href", "webhookPath"]

/-- The set `TEXTISH_KEYS`. -/
def TEXTISH_KEYS : List String :=
  ["message", "text", "content", "prompt", "justification", "description", "body", "summary",
   "question", "cmd", "instruction", "developer_instructions", "user_instructions",
   "base_instructions", "input", "arguments", "output", "last_agent_message", "new_str",
   "selection_with_ellipsis"]

/-! ## The `Sanitizer` class

Python methods mutate `self`; here each state-touching method returns the new
state alongside its result. The maps are association lists: Python dict lookup
is `lookupStr` (keys are unique in every reachable state because insertion only
happens after a failed lookup), and insertion appends at the end, preserving
dict insertion order. -/

/-- The mutable state of a `Sanitizer` instance (`__init__`). -/
structure Sanitizer where
  path_map : List (String × String)
  url_map : List (String × String)
  string_map : List (String × String)

/-- Construction `Sanitizer()`: all three maps start empty. -/
def Sanitizer.init : Sanitizer := ⟨[], [], []⟩

/-- Python dict lookup on an association list (first match). -/
def lookupStr (m : List (String × String)) (k : String) : Option String :=
  match m with
  | [] => none
  | (a, b) :: rest => if a = k then some b else lookupStr rest k

/-- Method `Sanitizer._hash(s, n=10)`: truncated lowercase-hex SHA-256. The `self`
argument is unused, as in the source. -/
def Sanitizer._hash (_ : Sanitizer) (s : String) (n : Nat := 10) : String :=
  (sha256_hexdigest s).take n

/-- Method `Sanitizer.sanitize_path`. -/
def Sanitizer.sanitize_path (st : Sanitizer) (value : String) : String × Sanitizer :=
  match lookupStr st.path_map value with
  | some t => (t, st)
  | none =>
    let token := "/redacted/path/" ++ st._hash value
    (token, { st with path_map := st.path_map ++ [(value, token)] })

/-- Method `Sanitizer.sanitize_url`. -/
def Sanitizer.sanitize_url (st : Sanitizer) (value : String) : String × Sanitizer :=
  if pyStartsWith value "https://" || pyStartsWith value "http://" || pyStartsWith value "git@" then
    match lookupStr st.url_map value with
    | some t => (t, st)
    | none =>
      let token := "redacted://url/" ++ st._hash value
      (token, { st with url_map := st.url_map ++ [(value, token)] })
  else (value, st)

/-- Method `Sanitizer.sanitize_text` (stateless: it only reads `self` through `_hash`,
which ignores it). `key or "text"` is Python falsiness on strings: the empty
key falls back to `"text"`. -/
def Sanitizer.sanitize_text (st : Sanitizer) (key value : String) : String :=
  let kpre := if key = "" then "text" else key
  let digest := st._hash value 8
  "[REDACTED_" ++ pyUpper kpre ++ " len=" ++ toString value.length ++ " sha=" ++ digest ++ "]"

/-- Method `Sanitizer.sanitize_generic_string`: the ordered classifier. -/
def Sanitizer.sanitize_generic_string (st : Sanitizer) (key value : String) :
    String × Sanitizer :=
  if PATHISH_KEYS.contains key then st.sanitize_path value
  else if URLISH_KEYS.contains key then st.sanitize_url value
  else if ISO_TS_RE_match value || DATE_RE_match value then (value, st)
  else if pyEndsWith (pyLower key) "timestamp" || pyEndsWith (pyLower key) "_timestamp" then
    (value, st)
  else if ["model", "model_provider", "cli_version", "type", "role", "source",
      "originator"].contains key then (value, st)
  else if (["id", "session_id", "sessionId"].contains key && UUIDISH_RE_match value) then
    (value, st)
  else if TEXTISH_KEYS.contains key then (st.sanitize_text key value, st)
  else if pyStartsWith value "/Users/" || pyStartsWith value "~/" || pyStartsWith value "/" then
    st.sanitize_path value
  else if pyContains value "://" || pyStartsWith value "git@" then st.sanitize_url value
  else if value.length ≤ 40 && IDENT_SAFE_RE_match value then (value, st)
  else (st.sanitize_text (if key = "" then "string" else key) value, st)

/-! ## JSON values and the recursive `sanitize` -/

/-- A JSON-shaped value: mappings (order-preserving association lists),
sequences, strings, numbers, booleans, null. -/
inductive Json where
  | obj : List (String × Json) → Json
  | arr : List Json → Json
  | str : String → Json
  | num : Int → Json
  | bool : Bool → Json
  | null : Json

mutual

/-- Method `Sanitizer.sanitize(obj, parent_key="")`: the recursive structure walk. -/
def Sanitizer.sanitize (st : Sanitizer) (obj : Json) (parent_key : String := "") :
    Json × Sanitizer :=
  match obj with
  | .obj kvs => let r := Sanitizer.sanitizeEntries st kvs; (.obj r.1, r.2)
  | .arr xs => let r := Sanitizer.sanitizeItems st parent_key xs; (.arr r.1, r.2)
  | .str s => let r := st.sanitize_generic_string parent_key s; (.str r.1, r.2)
  | .num n => (.num n, st)
  | .bool b => (.bool b, st)
  | .null => (.null, st)

/-- The dict comprehension inside `sanitize`: each value is sanitized with its
own key as context, threading the state left to right. -/
def Sanitizer.sanitizeEntries (st : Sanitizer) (kvs : List (String × Json)) :
    List (String × Json) × Sanitizer :=
  match kvs with
  | [] => ([], st)
  | (k, v) :: rest =>
    let r1 := st.sanitize v k
    let r2 := Sanitizer.sanitizeEntries r1.2 rest
    ((k, r1.1) :: r2.1, r2.2)

/-- The list comprehension inside `sanitize`: elements keep the parent key as
context, threading the state left to right. -/
def Sanitizer.sanitizeItems (st : Sanitizer) (parent_key : String) (xs : List Json) :
    List Json × Sanitizer :=
  match xs with
  | [] => ([], st)
  | v :: rest =>
    let r1 := st.sanitize v parent_key
    let r2 := Sanitizer.sanitizeItems r1.2 parent_key rest
    (r1.1 :: r2.1, r2.2)

end

/-- The use the main loop makes of the engine: one shared `Sanitizer` instance applied
to each parsed record in order with the default root context. -/
def runLines (st : Sanitizer) (lines : List Json) : List Json × Sanitizer :=
  match lines with
  | [] => ([], st)
  | j :: rest =>
    let r1 := st.sanitize j
    let r2 := runLines r1.2 rest
    (r1.1 :: r2.1, r2.2)

/-! ## Shape: everything about a JSON tree except string-leaf contents -/

mutual

/-- The shape of a JSON tree: key sets and their order, sequence lengths and
order, and all non-string scalars; string leaves are blanked. -/
def Json.shape : Json → Json
  | .obj kvs => .obj (Json.shapeEntries kvs)
  | .arr xs => .arr (Json.shapeItems xs)
  | .str _ => .str ""
  | .num n => .num n
  | .bool b => .bool b
  | .null => .null

/-- Shape of the entries of a mapping node. -/
def Json.shapeEntries : List (String × Json) → List (String × Json)
  | [] => []
  | (k, v) :: rest => (k, v.shape) :: Json.shapeEntries rest

/-- Shape of the elements of a sequence node. -/
def Json.shapeItems : List Json → List Json
  | [] => []
  | v :: rest => v.shape :: Json.shapeItems rest

end

/-! ## Token invariants and reachable sanitizer states -/

/-- The path token the source constructs at line 93:
`"/redacted/path/"` followed by the first 10 characters of the lowercase hex
SHA-256 digest of the original value. -/
def pathToken (v : String) : String := "/redacted/path/" ++ (sha256_hexdigest v).take 10

/-- The URL token the source constructs at line 101. -/
def urlToken (v : String) : String := "redacted://url/" ++ (sha256_hexdigest v).take 10

/-- Every entry of `path_map` stores exactly the hash-determined path token of
its key. -/
def PathInv (st : Sanitizer) : Prop :=
  ∀ x t, lookupStr st.path_map x = some t → t = pathToken x

/-- Every entry of `url_map` stores exactly the hash-determined URL token of
its key. -/
def UrlInv (st : Sanitizer) : Prop :=
  ∀ x t, lookupStr st.url_map x = some t → t = urlToken x

/-- Both map invariants together. -/
def Inv (st : Sanitizer) : Prop := PathInv st ∧ UrlInv st

/-- The sanitizer states a run can be in: freshly constructed, or the result
of any number of `sanitize` calls (the only state-mutating entry point the
transcoder loop uses). -/
inductive Reachable : Sanitizer → Prop where
  | init : Reachable Sanitizer.init
  | step (st : Sanitizer) (j : Json) (k : String) :
      Reachable st → Reachable (st.sanitize j k).2

/-- Appending a binding does not disturb an existing hit. -/
theorem lookupStr_append_of_some (m : List (String × String)) (v tok k t : String)
    (h : lookupStr m k = some t) : lookupStr (m ++ [(v, tok)]) k = some t := by
  induction m with
  | nil => simp [lookupStr] at h
  | cons p rest ih =>
    obtain ⟨a, b⟩ := p
    by_cases ha : a = k
    · simp only [lookupStr, if_pos ha] at h ⊢
      exact h
    · simp only [lookupStr, if_neg ha] at h ⊢
      exact ih h

/-- Lookup after appending a binding to a map that missed. -/
theorem lookupStr_append_of_none (m : List (String × String)) (v tok k : String)
    (h : lookupStr m k = none) :
    lookupStr (m ++ [(v, tok)]) k = if v = k then some tok else none := by
  induction m with
  | nil => simp [lookupStr]
  | cons p rest ih =>
    obtain ⟨a, b⟩ := p
    by_cases ha : a = k
    · simp only [lookupStr, if_pos ha] at h
      exact Option.noConfusion h
    · simp only [lookupStr, if_neg ha] at h ⊢
      exact ih h

/-- Under the invariant, `sanitize_path` returns the hash-determined token,
whether or not the value was seen before. -/
theorem sanitize_path_fst (st : Sanitizer) (v : String) (h : PathInv st) :
    (st.sanitize_path v).1 = pathToken v := by
  unfold Sanitizer.sanitize_path
  rcases hl : lookupStr st.path_map v with _ | t
  · rfl
  · exact h v t hl

/-- The method `sanitize_path` preserves the path-map invariant. -/
theorem sanitize_path_inv (st : Sanitizer) (v : String) (h : PathInv st) :
    PathInv (st.sanitize_path v).2 := by
  unfold Sanitizer.sanitize_path
  rcases hl : lookupStr st.path_map v with _ | t
  · intro x u hx
    replace hx : lookupStr (st.path_map ++ [(v, "/redacted/path/" ++ st._hash v)]) x = some u :=
      hx
    rcases h2 : lookupStr st.path_map x with _ | w
    · rw [lookupStr_append_of_none _ _ _ _ h2] at hx
      by_cases hv : v = x
      · subst hv
        rw [if_pos rfl, Option.some_inj] at hx
        exact hx.symm
      · rw [if_neg hv] at hx
        exact Option.noConfusion hx
    · rw [lookupStr_append_of_some _ _ _ _ _ h2, Option.some_inj] at hx
      exact hx ▸ h x w h2
  · exact h

/-- The method `sanitize_path` never removes or overwrites an existing entry. -/
theorem sanitize_path_mono (st : Sanitizer) (v x t : String)
    (h : lookupStr st.path_map x = some t) :
    lookupStr (st.sanitize_path v).2.path_map x = some t := by
  unfold Sanitizer.sanitize_path
  rcases hl : lookupStr st.path_map v with _ | u
  · exact lookupStr_append_of_some _ _ _ _ _ h
  · exact h

/-- The method `sanitize_path` does not touch the URL map. -/
theorem sanitize_path_url_map (st : Sanitizer) (v : String) :
    (st.sanitize_path v).2.url_map = st.url_map := by
  unfold Sanitizer.sanitize_path
  rcases hl : lookupStr st.path_map v with _ | u <;> rfl

/-- Whether `sanitize_url` recognizes a value as URL-shaped. -/
def urlMarker (v : String) : Bool :=
  pyStartsWith v "https://" || pyStartsWith v "http://" || pyStartsWith v "git@"

/-- The method `sanitize_url` passes non-URL-shaped values through, state untouched. -/
theorem sanitize_url_pass (st : Sanitizer) (v : String) (h : urlMarker v = false) :
    st.sanitize_url v = (v, st) := by
  unfold Sanitizer.sanitize_url
  rw [show (pyStartsWith v "https://" || pyStartsWith v "http://" || pyStartsWith v "git@")
      = urlMarker v from rfl, h]
  rfl

/-- Under the invariant, `sanitize_url` maps URL-shaped values to the
hash-determined token. -/
theorem sanitize_url_fst (st : Sanitizer) (v : String) (hinv : UrlInv st)
    (h : urlMarker v = true) : (st.sanitize_url v).1 = urlToken v := by
  unfold Sanitizer.sanitize_url
  rw [show (pyStartsWith v "https://" || pyStartsWith v "http://" || pyStartsWith v "git@")
      = urlMarker v from rfl, h]
  rcases hl : lookupStr st.url_map v with _ | t
  · rfl
  · exact hinv v t hl

/-- The method `sanitize_url` preserves the URL-map invariant. -/
theorem sanitize_url_inv (st : Sanitizer) (v : String) (h : UrlInv st) :
    UrlInv (st.sanitize_url v).2 := by
  unfold Sanitizer.sanitize_url
  rcases hm : (pyStartsWith v "https://" || pyStartsWith v "http://" || pyStartsWith v "git@") with _ | _
  · exact h
  · rcases hl : lookupStr st.url_map v with _ | t
    · intro x u hx
      replace hx :
          lookupStr (st.url_map ++ [(v, "redacted://url/" ++ st._hash v)]) x = some u := hx
      rcases h2 : lookupStr st.url_map x with _ | w
      · rw [lookupStr_append_of_none _ _ _ _ h2] at hx
        by_cases hv : v = x
        · subst hv
          rw [if_pos rfl, Option.some_inj] at hx
          exact hx.symm
        · rw [if_neg hv] at hx
          exact Option.noConfusion hx
      · rw [lookupStr_append_of_some _ _ _ _ _ h2, Option.some_inj] at hx
        exact hx ▸ h x w h2
    · exact h

/-- The method `sanitize_url` never removes or overwrites an existing entry. -/
theorem sanitize_url_mono (st : Sanitizer) (v x t : String)
    (h : lookupStr st.url_map x = some t) :
    lookupStr (st.sanitize_url v).2.url_map x = some t := by
  unfold Sanitizer.sanitize_url
  rcases hm : (pyStartsWith v "https://" || pyStartsWith v "http://" || pyStartsWith v "git@") with _ | _
  · exact h
  · rcases hl : lookupStr st.url_map v with _ | u
    · exact lookupStr_append_of_some _ _ _ _ _ h
    · exact h

/-- The method `sanitize_url` does not touch the path map. -/
theorem sanitize_url_path_map (st : Sanitizer) (v : String) :
    (st.sanitize_url v).2.path_map = st.path_map := by
  unfold Sanitizer.sanitize_url
  rcases hm : (pyStartsWith v "https://" || pyStartsWith v "http://" || pyStartsWith v "git@") with _ | _
  · rfl
  · rcases hl : lookupStr st.url_map v with _ | u <;> rfl

set_option maxHeartbeats 4000000 in
/-- The classifier either leaves the state alone or delegates wholesale to
`sanitize_path` or `sanitize_url` — the only three outcomes in the source. -/
theorem sanitize_generic_string_cases (st : Sanitizer) (key value : String) :
    (st.sanitize_generic_string key value).2 = st ∨
      st.sanitize_generic_string key value = st.sanitize_path value ∨
      st.sanitize_generic_string key value = st.sanitize_url value := by
  unfold Sanitizer.sanitize_generic_string
  repeat' split
  all_goals first
    | exact Or.inl rfl
    | exact Or.inr (Or.inl rfl)
    | exact Or.inr (Or.inr rfl)

/-- The classifier preserves both token-map invariants. -/
theorem sanitize_generic_string_inv (st : Sanitizer) (key value : String) (h : Inv st) :
    Inv (st.sanitize_generic_string key value).2 := by
  rcases sanitize_generic_string_cases st key value with hc | hc | hc
  · rw [hc]; exact h
  · rw [hc]
    exact ⟨sanitize_path_inv st value h.1,
      fun x t hx => h.2 x t ((sanitize_path_url_map st value) ▸ hx)⟩
  · rw [hc]
    exact ⟨fun x t hx => h.1 x t ((sanitize_url_path_map st value) ▸ hx),
      sanitize_url_inv st value h.2⟩

/-- The classifier never removes or overwrites a path-map entry. -/
theorem sanitize_generic_string_mono_path (st : Sanitizer) (key value x t : String)
    (h : lookupStr st.path_map x = some t) :
    lookupStr (st.sanitize_generic_string key value).2.path_map x = some t := by
  rcases sanitize_generic_string_cases st key value with hc | hc | hc
  · rw [hc]; exact h
  · rw [hc]; exact sanitize_path_mono st value x t h
  · rw [hc, sanitize_url_path_map]; exact h

/-- The classifier never removes or overwrites a URL-map entry. -/
theorem sanitize_generic_string_mono_url (st : Sanitizer) (key value x t : String)
    (h : lookupStr st.url_map x = some t) :
    lookupStr (st.sanitize_generic_string key value).2.url_map x = some t := by
  rcases sanitize_generic_string_cases st key value with hc | hc | hc
  · rw [hc]; exact h
  · rw [hc, sanitize_path_url_map]; exact h
  · rw [hc]; exact sanitize_url_mono st value x t h

/-- The recursive walk preserves both token-map invariants. -/
theorem sanitize_inv : ∀ (st : Sanitizer) (j : Json) (k : String),
    Inv st → Inv (st.sanitize j k).2 := by
  intro st j k
  refine Sanitizer.sanitize.induct
    (fun st j k => Inv st → Inv (st.sanitize j k).2)
    (fun st k xs => Inv st → Inv (Sanitizer.sanitizeItems st k xs).2)
    (fun st kvs => Inv st → Inv (Sanitizer.sanitizeEntries st kvs).2)
    ?_ ?_ ?_ ?_ ?_ ?_ ?_ ?_ ?_ ?_ st j k
  · intro st pk kvs ih h
    exact ih h
  · intro st pk xs ih h
    exact ih h
  · intro st pk s h
    exact sanitize_generic_string_inv st pk s h
  · intro st pk n h
    exact h
  · intro st pk b h
    exact h
  · intro st pk h
    exact h
  · intro st h
    exact h
  · intro st k v rest r1 ih1 ih2 h
    exact ih2 (ih1 h)
  · intro st pk h
    exact h
  · intro st pk v rest r1 ih1 ih2 h
    exact ih2 (ih1 h)

/-- The recursive walk never removes or overwrites entries of either map. -/
theorem sanitize_mono : ∀ (st : Sanitizer) (j : Json) (k : String),
    (∀ x t, lookupStr st.path_map x = some t →
      lookupStr (st.sanitize j k).2.path_map x = some t) ∧
    (∀ x t, lookupStr st.url_map x = some t →
      lookupStr (st.sanitize j k).2.url_map x = some t) := by
  intro st j k
  refine Sanitizer.sanitize.induct
    (fun st j k =>
      (∀ x t, lookupStr st.path_map x = some t →
        lookupStr (st.sanitize j k).2.path_map x = some t) ∧
      (∀ x t, lookupStr st.url_map x = some t →
        lookupStr (st.sanitize j k).2.url_map x = some t))
    (fun st k xs =>
      (∀ x t, lookupStr st.path_map x = some t →
        lookupStr (Sanitizer.sanitizeItems st k xs).2.path_map x = some t) ∧
      (∀ x t, lookupStr st.url_map x = some t →
        lookupStr (Sanitizer.sanitizeItems st k xs).2.url_map x = some t))
    (fun st kvs =>
      (∀ x t, lookupStr st.path_map x = some t →
        lookupStr (Sanitizer.sanitizeEntries st kvs).2.path_map x = some t) ∧
      (∀ x t, lookupStr st.url_map x = some t →
        lookupStr (Sanitizer.sanitizeEntries st kvs).2.url_map x = some t))
    ?_ ?_ ?_ ?_ ?_ ?_ ?_ ?_ ?_ ?_ st j k
  · intro st pk kvs ih
    exact ih
  · intro st pk xs ih
    exact ih
  · intro st pk s
    exact ⟨fun x t hx => sanitize_generic_string_mono_path st pk s x t hx,
      fun x t hx => sanitize_generic_string_mono_url st pk s x t hx⟩
  · intro st pk n
    exact ⟨fun x t hx => hx, fun x t hx => hx⟩
  · intro st pk b
    exact ⟨fun x t hx => hx, fun x t hx => hx⟩
  · intro st pk
    exact ⟨fun x t hx => hx, fun x t hx => hx⟩
  · intro st
    exact ⟨fun x t hx => hx, fun x t hx => hx⟩
  · intro st k v rest r1 ih1 ih2
    exact ⟨fun x t hx => ih2.1 x t (ih1.1 x t hx), fun x t hx => ih2.2 x t (ih1.2 x t hx)⟩
  · intro st pk
    exact ⟨fun x t hx => hx, fun x t hx => hx⟩
  · intro st pk v rest r1 ih1 ih2
    exact ⟨fun x t hx => ih2.1 x t (ih1.1 x t hx), fun x t hx => ih2.2 x t (ih1.2 x t hx)⟩

/-- Every reachable sanitizer state satisfies both token-map invariants. -/
theorem reachable_inv (st : Sanitizer) (h : Reachable st) : Inv st := by
  induction h with
  | init =>
    exact ⟨fun x t hx => Option.noConfusion hx, fun x t hx => Option.noConfusion hx⟩
  | step st j k hst ih =>
    exact sanitize_inv st j k ih

/-- The recursive walk preserves shape exactly. -/
theorem sanitize_shape : ∀ (st : Sanitizer) (j : Json) (k : String),
    ((st.sanitize j k).1).shape = j.shape := by
  intro st j k
  refine Sanitizer.sanitize.induct
    (fun st j k => ((st.sanitize j k).1).shape = j.shape)
    (fun st k xs => Json.shapeItems (Sanitizer.sanitizeItems st k xs).1 = Json.shapeItems xs)
    (fun st kvs =>
      Json.shapeEntries (Sanitizer.sanitizeEntries st kvs).1 = Json.shapeEntries kvs)
    ?_ ?_ ?_ ?_ ?_ ?_ ?_ ?_ ?_ ?_ st j k
  · intro st pk kvs ih
    show Json.obj (Json.shapeEntries (Sanitizer.sanitizeEntries st kvs).1) = _
    rw [ih]
    rfl
  · intro st pk xs ih
    show Json.arr (Json.shapeItems (Sanitizer.sanitizeItems st pk xs).1) = _
    rw [ih]
    rfl
  · intro st pk s
    rfl
  · intro st pk n
    rfl
  · intro st pk b
    rfl
  · intro st pk
    rfl
  · intro st
    rfl
  · intro st k v rest r1 ih1 ih2
    show (k, (r1.1).shape) :: Json.shapeEntries (Sanitizer.sanitizeEntries r1.2 rest).1 = _
    rw [ih2]
    show (k, ((st.sanitize v k).1).shape) :: _ = _
    rw [ih1]
    rfl
  · intro st pk
    rfl
  · intro st pk v rest r1 ih1 ih2
    show ((r1.1).shape) :: Json.shapeItems (Sanitizer.sanitizeItems r1.2 pk rest).1 = _
    rw [ih2]
    show ((st.sanitize v pk).1).shape :: _ = _
    rw [ih1]
    rfl

/-! ## The claims -/

/-- A lowercase hexadecimal character. -/
def isLowerHexChar (c : Char) : Bool := c.isDigit || ('a' ≤ c && c ≤ 'f')

/-- The scenario record of claim C1. -/
def c1_record : Json :=
  Json.obj [("type", Json.str "user_message"), ("cwd", Json.str "/Users/alice/proj"),
    ("content", Json.str "fix the bug in parser.py")]

/-- C1 (counterexample): the claim says the `content` placeholder reads
`len=25`, but the original string has 24 characters and the code emits the
original length: the placeholder produced is `len=24`, so it does not begin
with the prefix every string of the claimed form begins with. -/
theorem C1_counterexample :
    (Sanitizer.init.sanitize c1_record "").1 =
        Json.obj [("type", Json.str "user_message"),
          ("cwd", Json.str "/redacted/path/2711bd02af"),
          ("content", Json.str "[REDACTED_CONTENT len=24 sha=ea740f7e]")] ∧
      ("fix the bug in parser.py").length = 24 ∧
      pyStartsWith "[REDACTED_CONTENT len=24 sha=ea740f7e]" "[REDACTED_CONTENT len=25" = false := by
  refine ⟨?_, ?_, ?_⟩ <;> rfl

/-- C1 (amended): sanitizing the scenario record leaves `type` unchanged,
replaces `cwd` with `/redacted/path/` followed by 10 lowercase hex characters,
and replaces `content` with `[REDACTED_CONTENT len=24 sha=<8 hex>]` — the
length field carrying 24, the length of the original string. -/
theorem C1_theorem :
    (Sanitizer.init.sanitize c1_record "").1 =
      Json.obj [("type", Json.str "user_message"),
        ("cwd", Json.str "/redacted/path/2711bd02af"),
        ("content", Json.str "[REDACTED_CONTENT len=24 sha=ea740f7e]")] ∧
    "/redacted/path/2711bd02af" = "/redacted/path/" ++ "2711bd02af" ∧
    ("2711bd02af").length = 10 ∧
    ("2711bd02af").data.all isLowerHexChar = true ∧
    "[REDACTED_CONTENT len=24 sha=ea740f7e]" =
      "[REDACTED_CONTENT len=" ++ toString ("fix the bug in parser.py").length
        ++ " sha=" ++ "ea740f7e" ++ "]" ∧
    ("ea740f7e").length = 8 ∧
    ("ea740f7e").data.all isLowerHexChar = true := by
  refine ⟨?_, ?_, ?_, ?_, ?_, ?_, ?_⟩ <;> rfl

/-- C2 (counterexample): `"ftp://example.com"` under the unknown key
`"endpoint"` reaches rule 9 (it contains `://` and matches none of rules 1-8),
yet the classifier returns the original value, not a pseudonym token: rule 9
delegates to `sanitize_url`, which recognizes only `https://`, `http://` and
`git@` and fails open otherwise. -/
theorem C2_counterexample :
    PATHISH_KEYS.contains "endpoint" = false ∧
    URLISH_KEYS.contains "endpoint" = false ∧
    (ISO_TS_RE_match "ftp://example.com" || DATE_RE_match "ftp://example.com") = false ∧
    (pyEndsWith (pyLower "endpoint") "timestamp"
      || pyEndsWith (pyLower "endpoint") "_timestamp") = false ∧
    (["model", "model_provider", "cli_version", "type", "role", "source",
      "originator"].contains "endpoint") = false ∧
    ((["id", "session_id", "sessionId"].contains "endpoint")
      && UUIDISH_RE_match "ftp://example.com") = false ∧
    TEXTISH_KEYS.contains "endpoint" = false ∧
    (pyStartsWith "ftp://example.com" "/Users/" || pyStartsWith "ftp://example.com" "~/"
      || pyStartsWith "ftp://example.com" "/") = false ∧
    pyContains "ftp://example.com" "://" = true ∧
    Sanitizer.init.sanitize_generic_string "endpoint" "ftp://example.com"
      = ("ftp://example.com", Sanitizer.init) := by
  refine ⟨?_, ?_, ?_, ?_, ?_, ?_, ?_, ?_, ?_, ?_⟩ <;> rfl

/-- C2 (amended): when rules 1-8 do not match and the value contains `://` or
starts with `git@`, the classifier delegates to the URL pseudonymizer: values
beginning with `https://`, `http://` or `git@` become the hash-determined URL
token, all others are returned unchanged (fail-open). -/
theorem C2_theorem (st : Sanitizer) (key value : String)
    (h1 : PATHISH_KEYS.contains key = false)
    (h2 : URLISH_KEYS.contains key = false)
    (h3 : (ISO_TS_RE_match value || DATE_RE_match value) = false)
    (h4 : (pyEndsWith (pyLower key) "timestamp"
      || pyEndsWith (pyLower key) "_timestamp") = false)
    (h5 : (["model", "model_provider", "cli_version", "type", "role", "source",
      "originator"].contains key) = false)
    (h6 : ((["id", "session_id", "sessionId"].contains key)
      && UUIDISH_RE_match value) = false)
    (h7 : TEXTISH_KEYS.contains key = false)
    (h8 : (pyStartsWith value "/Users/" || pyStartsWith value "~/"
      || pyStartsWith value "/") = false)
    (h9 : (pyContains value "://" || pyStartsWith value "git@") = true)
    (hinv : UrlInv st) :
    (urlMarker value = true → (st.sanitize_generic_string key value).1 = urlToken value) ∧
    (urlMarker value = false → st.sanitize_generic_string key value = (value, st)) := by
  have hroute : st.sanitize_generic_string key value = st.sanitize_url value := by
    unfold Sanitizer.sanitize_generic_string
    rw [h1, h2, h3, h4, h5, h6, h7, h8, h9]
    rfl
  constructor
  · intro hm
    rw [hroute]
    exact sanitize_url_fst st value hinv hm
  · intro hm
    rw [hroute]
    exact sanitize_url_pass st value hm

/-- C2 (witness): a concrete instance of the amended claim, with the token
evaluated. -/
theorem C2_witness :
    (Sanitizer.init.sanitize_generic_string "endpoint" "git@github.com:org/repo.git").1
        = urlToken "git@github.com:org/repo.git" ∧
      urlToken "git@github.com:org/repo.git" = "redacted://url/84d4ae8c8b" :=
  ⟨(C2_theorem Sanitizer.init "endpoint" "git@github.com:org/repo.git"
      (by rfl) (by rfl) (by rfl) (by rfl) (by rfl) (by rfl) (by rfl) (by rfl) (by rfl)
      (fun x t hx => Option.noConfusion hx)).1 (by rfl),
    by rfl⟩

/-- C3: sanitization is structure-preserving — for every JSON value and any
starting state and key context, the output has exactly the shape of the input:
same keys in the same order at mapping nodes, same length and order at
sequence nodes, and identical non-string scalars; only string leaves change. -/
theorem C3_theorem (st : Sanitizer) (j : Json) (k : String) :
    ((st.sanitize j k).1).shape = j.shape :=
  sanitize_shape st j k

/-- C4: within one run (any two reachable states of the same or different
moments of it), a value pseudonymized twice under the same category receives
the identical token, for both the path and the URL categories. -/
theorem C4_theorem (st1 st2 : Sanitizer) (v : String)
    (h1 : Reachable st1) (h2 : Reachable st2) :
    (st1.sanitize_path v).1 = (st2.sanitize_path v).1 ∧
    (st1.sanitize_url v).1 = (st2.sanitize_url v).1 := by
  have i1 := reachable_inv st1 h1
  have i2 := reachable_inv st2 h2
  constructor
  · rw [sanitize_path_fst st1 v i1.1, sanitize_path_fst st2 v i2.1]
  · rcases hm : urlMarker v with _ | _
    · rw [sanitize_url_pass st1 v hm, sanitize_url_pass st2 v hm]
    · rw [sanitize_url_fst st1 v i1.2 hm, sanitize_url_fst st2 v i2.2 hm]

/-- A record containing the cwd of the C4 scenario. -/
def c4_record : Json := Json.obj [("cwd", Json.str "/Users/alice/proj")]

/-- C4 (witness): the cwd of the scenario gets the same token in a fresh state
and in the state left behind by sanitizing a record that contains it. -/
theorem C4_witness :
    ((Sanitizer.init.sanitize_path "/Users/alice/proj").1 =
        ((Sanitizer.init.sanitize c4_record "").2.sanitize_path "/Users/alice/proj").1 ∧
      (Sanitizer.init.sanitize_url "/Users/alice/proj").1 =
        ((Sanitizer.init.sanitize c4_record "").2.sanitize_url "/Users/alice/proj").1) ∧
    (Sanitizer.init.sanitize_path "/Users/alice/proj").1 = "/redacted/path/2711bd02af" :=
  ⟨C4_theorem Sanitizer.init ((Sanitizer.init.sanitize c4_record "").2) "/Users/alice/proj"
      Reachable.init (Reachable.step Sanitizer.init c4_record "" Reachable.init),
    by rfl⟩

/-- C5: values under the keys `type`, `role`, `model`, `model_provider` and
`cli_version` are returned unchanged by the classifier whatever the value and
the state, and hence (since `sanitize` applies the classifier with the owning
key at every nesting depth) by sanitization: the string node is returned
verbatim with the state untouched. -/
theorem C5_theorem (st : Sanitizer) (key value : String)
    (h : key ∈ ["type", "role", "model", "model_provider", "cli_version"]) :
    st.sanitize_generic_string key value = (value, st) ∧
    st.sanitize (Json.str value) key = (Json.str value, st) := by
  have hmain : st.sanitize_generic_string key value = (value, st) := by
    fin_cases h <;> exact ite_self _
  refine ⟨hmain, ?_⟩
  show (Json.str (st.sanitize_generic_string key value).1,
    (st.sanitize_generic_string key value).2) = (Json.str value, st)
  rw [hmain]

/-- C5 (witness): the preserved keys at a concrete value. -/
theorem C5_witness :
    Sanitizer.init.sanitize_generic_string "model" "gpt-5.1-codex"
        = ("gpt-5.1-codex", Sanitizer.init) ∧
      Sanitizer.init.sanitize (Json.str "gpt-5.1-codex") "model"
        = (Json.str "gpt-5.1-codex", Sanitizer.init) :=
  C5_theorem Sanitizer.init "model" "gpt-5.1-codex" (by decide)

/-- C6 (counterexample): for the empty key the placeholder does not carry the
upper-cased key (which would give the prefix `[REDACTED_ `) — the source falls
back to `key or "text"` and emits `[REDACTED_TEXT ...]`. -/
theorem C6_counterexample :
    Sanitizer.init.sanitize_text "" "hello" = "[REDACTED_TEXT len=5 sha=2cf24dba]" ∧
    "[REDACTED_TEXT len=5 sha=2cf24dba]"
      ≠ "[REDACTED_" ++ pyUpper "" ++ " len=5 sha=2cf24dba]" :=
  ⟨rfl, by decide⟩

/-- C6 (amended): for every nonempty key, the redact-as-text transform returns
exactly `[REDACTED_<K> len=<N> sha=<D>]` with `<K>` the key upper-cased, `<N>`
the length of the original value and `<D>` the first 8 characters of its
SHA-256 hex digest; the empty key uses the fallback prefix `TEXT` instead. -/
theorem C6_theorem (st : Sanitizer) (key value : String) (h : key ≠ "") :
    st.sanitize_text key value =
      "[REDACTED_" ++ pyUpper key ++ " len=" ++ toString value.length ++ " sha="
        ++ (sha256_hexdigest value).take 8 ++ "]" := by
  unfold Sanitizer.sanitize_text
  rw [if_neg h]
  rfl

/-- C6 (witness): the transform at the C1 scenario key and value. -/
theorem C6_witness :
    Sanitizer.init.sanitize_text "content" "fix the bug in parser.py" =
      "[REDACTED_" ++ pyUpper "content" ++ " len="
        ++ toString ("fix the bug in parser.py").length ++ " sha="
        ++ (sha256_hexdigest "fix the bug in parser.py").take 8 ++ "]" :=
  C6_theorem Sanitizer.init "content" "fix the bug in parser.py" (by decide)

/-- C7: `sanitize_url` is total (it is a Lean function on all strings) and:
values not beginning with `https://`, `http://` or `git@` pass through
unchanged with the state untouched, and values beginning with one of the
markers receive the hash-determined pseudonym token. -/
theorem C7_theorem (st : Sanitizer) (v : String) (hinv : UrlInv st) :
    (urlMarker v = false → st.sanitize_url v = (v, st)) ∧
    (urlMarker v = true → (st.sanitize_url v).1 = urlToken v) :=
  ⟨fun h => sanitize_url_pass st v h, fun h => sanitize_url_fst st v hinv h⟩

/-- C7 (witness): pass-through on a non-URL and tokenization of a URL, with
the token evaluated. -/
theorem C7_witness :
    Sanitizer.init.sanitize_url "not a url" = ("not a url", Sanitizer.init) ∧
    (Sanitizer.init.sanitize_url "https://example.com").1 = urlToken "https://example.com" ∧
    urlToken "https://example.com" = "redacted://url/100680ad54" :=
  ⟨(C7_theorem Sanitizer.init "not a url" (fun x t hx => Option.noConfusion hx)).1 (by rfl),
    (C7_theorem Sanitizer.init "https://example.com"
      (fun x t hx => Option.noConfusion hx)).2 (by rfl),
    by rfl⟩

/-- C8: under a key that is neither path-bearing nor URL-bearing, a value
matching the ISO-8601 timestamp pattern or the calendar-date pattern is
preserved verbatim with the state untouched. -/
theorem C8_theorem (st : Sanitizer) (key value : String)
    (h1 : PATHISH_KEYS.contains key = false)
    (h2 : URLISH_KEYS.contains key = false)
    (h3 : (ISO_TS_RE_match value || DATE_RE_match value) = true) :
    st.sanitize_generic_string key value = (value, st) := by
  unfold Sanitizer.sanitize_generic_string
  rw [h1, h2, h3]
  rfl

/-- The timestamp record of the C8 scenario. -/
def c8_record : Json := Json.obj [("timestamp", Json.str "2026-02-23T10:00:00Z")]

/-- C8 (witness): the scenario timestamp is preserved, both at the classifier
and through `sanitize` on the whole record. -/
theorem C8_witness :
    Sanitizer.init.sanitize_generic_string "timestamp" "2026-02-23T10:00:00Z"
        = ("2026-02-23T10:00:00Z", Sanitizer.init) ∧
      Sanitizer.init.sanitize c8_record "" = (c8_record, Sanitizer.init) :=
  ⟨C8_theorem Sanitizer.init "timestamp" "2026-02-23T10:00:00Z" (by rfl) (by rfl) (by rfl),
    by rfl⟩

/-- C9: two runs over the same parsed lines, each starting from a freshly
initialized sanitizer, produce identical output — the embedding has no other
input: the hash is unsalted and deterministic and map iteration order is
insertion order. -/
theorem C9_theorem (st1 st2 : Sanitizer) (lines : List Json)
    (h1 : st1 = Sanitizer.init) (h2 : st2 = Sanitizer.init) :
    (runLines st1 lines).1 = (runLines st2 lines).1 := by
  subst h1
  subst h2
  rfl

/-- C9 (witness): the two-run property at a concrete pair of records. -/
theorem C9_witness :
    (runLines Sanitizer.init [c1_record, c8_record]).1
      = (runLines Sanitizer.init [c1_record, c8_record]).1 :=
  C9_theorem Sanitizer.init Sanitizer.init [c1_record, c8_record] rfl rfl

/-- C10: in every reachable state, `sanitize_path` returns exactly
`/redacted/path/` ++ the first 10 characters of the lowercase hex SHA-256
digest of the value — independent of the map state; every `path_map` entry
stores exactly that token for its key; and no entry is ever removed or
overwritten by further sanitization. -/
theorem C10_theorem (st : Sanitizer) (h : Reachable st) :
    (∀ v, (st.sanitize_path v).1 = pathToken v) ∧
    (∀ x t, lookupStr st.path_map x = some t → t = pathToken x) ∧
    (∀ x t (j : Json) (key : String), lookupStr st.path_map x = some t →
      lookupStr ((st.sanitize j key).2).path_map x = some t) := by
  have hinv := reachable_inv st h
  exact ⟨fun v => sanitize_path_fst st v hinv.1, hinv.1,
    fun x t j key hx => (sanitize_mono st j key).1 x t hx⟩

/-- C10 (witness): the invariant applied in the fresh state at the scenario
path, with the token spelled out. -/
theorem C10_witness :
    (Sanitizer.init.sanitize_path "/Users/alice/proj").1 = pathToken "/Users/alice/proj" ∧
    pathToken "/Users/alice/proj"
      = "/redacted/path/" ++ (sha256_hexdigest "/Users/alice/proj").take 10 :=
  ⟨(C10_theorem Sanitizer.init Reachable.init).1 "/Users/alice/proj", by rfl⟩

end LocalPush
